import Mathlib

/-!
Verification development for the TUD_RL maritime RL repository.

The Python sources under verification are:
  * `tud_rl/envs/_envs/MMG_KVLCC2.py`          (MMG vessel dynamics)
  * `tud_rl/envs/_envs/FossenEnv.py`           (collision-avoidance environment)
  * `tud_rl/envs/_envs/HHOS_PathPlanning_Env.py` (path-planning environment)
  * `current_algos/DQN_MinAtar/dqn_agent_MinAtar.py` (DQN agent construction)

Embedding conventions:
  * Python floats are embedded as exact rationals `ℚ`.  The literal constant
    `np.pi`/`math.pi` used by the code is the IEEE-754 double closest to π,
    which is itself an exact rational; it is embedded as `PI` below.
  * Calls into the maths library (`math.sqrt`, `math.atan2`, `math.exp`,
    `math.cos`, `math.sin`, float `**`) are external transcendental
    primitives; they are abstracted as a structure `RealFns` of rational
    functions over which all theorems quantify.
  * A Python division raises `ZeroDivisionError` on a zero divisor; divisions
    whose divisor contains runtime data are embedded with the checked
    division `qdiv` returning `Option ℚ`, and a fallible computation returns
    `Option`/`Except`.
  * Python `assert` statements are embedded as `Except String` errors.

The geometry helper module `FossenFnc.py` (angle wrapping, bearings, TCPA,
vector projection) is imported by the sources but is not part of the source
tree under verification; those helpers are modelled from the specification
and are marked `Modelled from the spec:` in their doc comments.
-/

namespace TudRL

/-- The exact rational value of the IEEE-754 double `math.pi` (= `np.pi`)
used throughout the Python code. -/
def PI : ℚ := 884279719003555 / 281474976710656

/-- External real-valued library functions called by the code
(`math.sqrt`, `math.atan2`, `math.exp`, `math.cos`, `math.sin`, and the
float power `**` used with a non-integral exponent).  They are abstracted
as arbitrary rational functions; theorems quantify over them. -/
structure RealFns where
  sqrt  : ℚ → ℚ
  atan2 : ℚ → ℚ → ℚ
  exp   : ℚ → ℚ
  cos   : ℚ → ℚ
  sin   : ℚ → ℚ
  rpow  : ℚ → ℚ → ℚ

/-- Checked division: embeds a Python float division whose divisor holds
runtime data (`ZeroDivisionError` becomes `none`). -/
def qdiv (x y : ℚ) : Option ℚ := if y = 0 then none else some (x / y)

/-- Modelled from the spec: `FossenFnc.angle_to_2pi` — wraps an angle (rad)
into [0, 2π). -/
def angle_to_2pi (a : ℚ) : ℚ := a - 2 * PI * Rat.floor (a / (2 * PI))

lemma rat_floor_eq_floor (q : ℚ) : (Rat.floor q : ℤ) = ⌊q⌋ := by
  rw [Rat.floor_def', Rat.floor_def]

/-- Modelled from the spec: `FossenFnc.angle_to_pi` — wraps an angle (rad)
into (-π, π]. -/
def angle_to_pi (a : ℚ) : ℚ :=
  if angle_to_2pi a > PI then angle_to_2pi a - 2 * PI else angle_to_2pi a

/-- Modelled from the spec: `FossenFnc.dtr` — degrees to radians. -/
def dtr (d : ℚ) : ℚ := d * PI / 180

/-- Modelled from the spec: `FossenFnc.rtd` — radians to degrees. -/
def rtd (a : ℚ) : ℚ := a * 180 / PI

lemma PI_pos : 0 < PI := by norm_num [PI]

lemma two_PI_pos : 0 < 2 * PI := by norm_num [PI]

lemma angle_to_2pi_eq_fract (a : ℚ) :
    angle_to_2pi a = 2 * PI * Int.fract (a / (2 * PI)) := by
  unfold angle_to_2pi
  rw [rat_floor_eq_floor, Int.fract, mul_sub,
    mul_div_cancel₀ _ (ne_of_gt two_PI_pos)]

lemma angle_to_2pi_nonneg (a : ℚ) : 0 ≤ angle_to_2pi a := by
  rw [angle_to_2pi_eq_fract]
  exact mul_nonneg (le_of_lt two_PI_pos) (Int.fract_nonneg _)

lemma angle_to_2pi_lt (a : ℚ) : angle_to_2pi a < 2 * PI := by
  rw [angle_to_2pi_eq_fract]
  calc 2 * PI * Int.fract (a / (2 * PI)) < 2 * PI * 1 :=
        (mul_lt_mul_left two_PI_pos).mpr (Int.fract_lt_one _)
    _ = 2 * PI := mul_one _

lemma angle_to_2pi_eq_self {a : ℚ} (h0 : 0 ≤ a) (h1 : a < 2 * PI) :
    angle_to_2pi a = a := by
  unfold angle_to_2pi
  rw [rat_floor_eq_floor]
  have hfl : ⌊a / (2 * PI)⌋ = 0 := by
    rw [Int.floor_eq_zero_iff]
    constructor
    · exact div_nonneg h0 (le_of_lt two_PI_pos)
    · rw [div_lt_one two_PI_pos]
      simpa using h1
  rw [hfl]
  push_cast
  ring

/-- Modelled from the spec: `FossenFnc.ED` — Euclidean distance between two
(N, E) points, with or without the square root (`sq = false` returns the
squared distance). -/
def ED (F : RealFns) (N0 E0 N1 E1 : ℚ) (sq : Bool) : ℚ :=
  if sq then F.sqrt ((N0 - N1) ^ 2 + (E0 - E1) ^ 2)
  else (N0 - N1) ^ 2 + (E0 - E1) ^ 2

/-- Modelled from the spec: `FossenFnc.xy_from_polar` — cartesian (E, N)
components of a polar vector (navigation convention: angle measured
clockwise from North). -/
def xy_from_polar (F : RealFns) (r angle : ℚ) : ℚ × ℚ :=
  (r * F.sin angle, r * F.cos angle)

/-- Modelled from the spec: `FossenFnc.polar_from_xy` — polar form
(magnitude, angle from North) of cartesian (x, y) components. -/
def polar_from_xy (F : RealFns) (x y : ℚ) : ℚ × ℚ :=
  (F.sqrt (x ^ 2 + y ^ 2), F.atan2 x y)

/-- Modelled from the spec: `FossenFnc.bng_abs` — absolute bearing (rad,
[0, 2π)) from point 0 to point 1. -/
def bng_abs (F : RealFns) (N0 E0 N1 E1 : ℚ) : ℚ :=
  angle_to_2pi (F.atan2 (E1 - E0) (N1 - N0))

/-- Modelled from the spec: `FossenFnc.bng_rel` — relative bearing:
absolute bearing minus own heading, wrapped into [0, 2π) (default) or
(-π, π] when `to_2pi = false`. -/
def bng_rel (F : RealFns) (N0 E0 N1 E1 head0 : ℚ) (to_2pi : Bool) : ℚ :=
  if to_2pi then angle_to_2pi (bng_abs F N0 E0 N1 E1 - head0)
  else angle_to_pi (bng_abs F N0 E0 N1 E1 - head0)

/-- Modelled from the spec: `FossenFnc.head_inter` — heading intersection
angle of two vessels, wrapped into [0, 2π). -/
def head_inter (head_OS head_TS : ℚ) : ℚ := angle_to_2pi (head_TS - head_OS)

/-- Modelled from the spec: `FossenFnc.project_vector` — cartesian (E, N)
components of the projection of the polar vector (VA, angleA) onto the
direction of angleB.  cos(angleA - angleB) decomposes the closing speed. -/
def project_vector (F : RealFns) (VA angleA VB angleB : ℚ) : ℚ × ℚ :=
  (VA * F.cos (angleA - angleB) * F.sin angleB,
   VA * F.cos (angleA - angleB) * F.cos angleB)

/-- Modelled from the spec: `FossenFnc.tcpa` — signed time at which the
relative position of two vessels is minimised under constant-velocity
extrapolation (negative when the closest approach already passed).  The
value is undefined when the two velocity vectors coincide; the plain
rational division (yielding 0 there) embeds that junk case. -/
def tcpa (F : RealFns) (NOS EOS NTS ETS chiOS chiTS VOS VTS : ℚ) : ℚ :=
  let vON := VOS * F.cos chiOS;
  let vOE := VOS * F.sin chiOS;
  let vTN := VTS * F.cos chiTS;
  let vTE := VTS * F.sin chiTS;
  let dN := NTS - NOS;
  let dE := ETS - EOS;
  let dvN := vTN - vON;
  let dvE := vTE - vOE;
  -(dN * dvN + dE * dvE) / (dvN ^ 2 + dvE ^ 2)

/-! ## KVLCC2 vessel (MMG model), from `MMG_KVLCC2.py` -/

namespace KVLCC2

-- Hull parameter set `kvlcc2_full` (lines 22-76 of MMG_KVLCC2.py).
def C_b : ℚ := 0.810
def Lpp : ℚ := 320.0
def B : ℚ := 58
def m : ℚ := 312600 * 1020
def w_P0 : ℚ := 0.35
def J_int : ℚ := 0.4
def J_slo : ℚ := -0.5
def x_G : ℚ := 11.2
def x_P : ℚ := -160.0
def D_p : ℚ := 9.86
def k_0 : ℚ := 0.2931
def k_1 : ℚ := -0.2753
def k_2 : ℚ := -0.1359
def C_1 : ℚ := 2.0
def C_2_plus : ℚ := 1.6
def C_2_minus : ℚ := 1.1
def l_R : ℚ := -0.710
def gamma_R_plus : ℚ := 0.640
def gamma_R_minus : ℚ := 0.395
def eta_param : ℚ := 0.626
def kappa : ℚ := 0.50
def A_R : ℚ := 112.5
def epsilon : ℚ := 1.09
def A_R_Ld_em : ℚ := 1 / 46.8
def f_alpha : ℚ := 2.747
def rho : ℚ := 1020
def t_R : ℚ := 0.387
def t_P : ℚ := 0.220
def x_H_dash : ℚ := -0.464
def d : ℚ := 20.8
def m_x_dash : ℚ := 0.022
def m_y_dash : ℚ := 0.223
def R_0_dash : ℚ := 0.022
def X_vv_dash : ℚ := -0.040
def X_vr_dash : ℚ := 0.002
def X_rr_dash : ℚ := 0.011
def X_vvvv_dash : ℚ := 0.771
def Y_v_dash : ℚ := -0.315
def Y_r_dash : ℚ := 0.083
def Y_vvv_dash : ℚ := -1.607
def Y_vvr_dash : ℚ := 0.379
def Y_vrr_dash : ℚ := -0.391
def Y_rrr_dash : ℚ := 0.008
def N_v_dash : ℚ := -0.137
def N_r_dash : ℚ := -0.049
def N_vvv_dash : ℚ := -0.030
def N_vvr_dash : ℚ := -0.294
def N_vrr_dash : ℚ := 0.055
def N_rrr_dash : ℚ := -0.013
def I_zG : ℚ := 2e12
def J_z_dash : ℚ := 0.011
def a_H : ℚ := 0.312

/-- Maximum rudder angle (rad), `dtr(10)`. -/
def rud_angle_max : ℚ := dtr 10

/-- Rudder angle increment (rad/s), `dtr(2.5)`. -/
def rud_angle_inc : ℚ := dtr 2.5

-- Dimensional added masses and inertia, computed inside `_mmg_dynamics`
-- (lines 278-282).
def m_x : ℚ := m_x_dash * (0.5 * rho * Lpp ^ 2 * d)
def m_y : ℚ := m_y_dash * (0.5 * rho * Lpp ^ 2 * d)
def J_z : ℚ := J_z_dash * (0.5 * rho * Lpp ^ 4 * d)

/-- `f = I_zG + J_z + x_G**2 * m` (line 292). -/
def fconst : ℚ := I_zG + J_z + x_G ^ 2 * m

/-- Current-force polynomial `_C_X` (lines 103-109). -/
def C_X (g_rc : ℚ) : ℚ :=
  -0.0665 * g_rc ^ 5 + 0.5228 * g_rc ^ 4 - 1.4365 * g_rc ^ 3
    + 1.6024 * g_rc ^ 2 - 0.2967 * g_rc - 0.4691

/-- Current-force polynomial `_C_Y` (lines 111-116). -/
def C_Y (g_rc : ℚ) : ℚ :=
  0.05930686 * g_rc ^ 4 - 0.37522028 * g_rc ^ 3 + 0.46812233 * g_rc ^ 2
    + 0.39114522 * g_rc - 0.00273578

/-- Current-force polynomial `_C_N` (lines 118-123). -/
def C_N (g_rc : ℚ) : ℚ :=
  -0.0140 * g_rc ^ 5 + 0.1131 * g_rc ^ 4 - 0.2757 * g_rc ^ 3
    + 0.1617 * g_rc ^ 2 + 0.0728 * g_rc

/-- `_vm_from_v_r` (lines 125-126): lateral velocity at midship. -/
def vm_from_v_r (v r : ℚ) : ℚ := v - x_G * r

/-- Degenerate-case branch of `_mmg_dynamics` (lines 137-144): drift angle,
non-dimensional lateral velocity and non-dimensional yaw rate, all zero
when the total speed `U` is zero. -/
def nondim (F : RealFns) (u vm r U : ℚ) : Option (ℚ × ℚ × ℚ) :=
  if U = 0 then some (0, 0, 0)
  else do
    let v_dash ← qdiv vm U
    let r_dash ← qdiv (r * Lpp) U
    some (F.atan2 (-vm) u, v_dash, r_dash)

/-- Propeller advance ratio (lines 188-191): zero when the propeller
revolution `nps` is zero. -/
def advance_ratio (w_P u nps : ℚ) : Option ℚ :=
  if nps = 0 then some 0 else qdiv ((1 - w_P) * u) (nps * D_p)

/-- Longitudinal inflow velocity to the rudder `u_R` (lines 220-225):
zero when the advance ratio `J` is zero. -/
def rudder_inflow_u (F : RealFns) (u w_P J K_T : ℚ) : Option ℚ :=
  if J = 0 then some 0
  else do
    let q ← qdiv (8 * K_T) (PI * J ^ 2)
    some (u * (1 - w_P) * epsilon *
      F.sqrt (eta_param * (1 + kappa * (F.sqrt (1 + q) - 1)) ^ 2
        + (1 - eta_param)))

/-- Current-induced forces (lines 248-273); the own-ship update always
passes `fl_vel = 0`, selecting the zero branch. -/
def current_forces (F : RealFns) (u vm psi fl_psi : ℚ) (fl_vel : Option ℚ) :
    ℚ × ℚ × ℚ :=
  match fl_vel with
  | some fv =>
    if fv ≠ 0 then
      let u_c := -fv * F.cos (fl_psi - psi);
      let u_rc := u - u_c;
      let v_c := fv * F.sin (fl_psi - psi);
      let v_rc := vm - v_c;
      let g_rc := |(-(F.atan2 v_rc u_rc))|;
      let A_Fc := B * d * C_b;
      let A_Lc := Lpp * d * C_b;
      (0.5 * rho * A_Fc * C_X g_rc * |u_rc| * u_rc,
       0.5 * rho * A_Lc * C_Y g_rc * |v_rc| * v_rc,
       0.5 * rho * A_Lc * Lpp * C_N g_rc * |v_rc| * v_rc)
    else (0, 0, 0)
  | none => (0, 0, 0)

/-- `_mmg_dynamics` (lines 128-304): the MMG force balance returning the
acceleration vector (d_u, d_v, d_r).  Divisions whose divisor holds
runtime data use `qdiv`; a `none` result embeds a Python
`ZeroDivisionError`. -/
def mmg_dynamics (F : RealFns) (nu : ℚ × ℚ × ℚ)
    (psi rud_angle nps fl_psi : ℚ) (fl_vel : Option ℚ) :
    Option (ℚ × ℚ × ℚ) := do
  let (u, v, r) := nu
  let vm := vm_from_v_r v r
  let U := F.sqrt (u ^ 2 + vm ^ 2)
  let (beta, v_dash, r_dash) ← nondim F u vm r U
  -- hydrodynamic forces acting on ship hull (lines 147-174)
  let X_H := 0.5 * rho * Lpp * d * U ^ 2 *
    (-R_0_dash + X_vv_dash * v_dash ^ 2 + X_vr_dash * v_dash * r_dash
      + X_rr_dash * r_dash ^ 2 + X_vvvv_dash * v_dash ^ 4)
  let Y_H := 0.5 * rho * Lpp * d * U ^ 2 *
    (Y_v_dash * v_dash + Y_r_dash * r_dash + Y_vvv_dash * v_dash ^ 3
      + Y_vvr_dash * v_dash ^ 2 * r_dash + Y_vrr_dash * v_dash * r_dash ^ 2
      + Y_rrr_dash * r_dash ^ 3)
  let N_H := 0.5 * rho * Lpp ^ 2 * d * U ^ 2 *
    (N_v_dash * v_dash + N_r_dash * r_dash + N_vvv_dash * v_dash ^ 3
      + N_vvr_dash * v_dash ^ 2 * r_dash + N_vrr_dash * v_dash * r_dash ^ 2
      + N_rrr_dash * r_dash ^ 3)
  -- longitudinal surge force due to propeller (lines 176-200); the hull
  -- parameter set contains C_1, C_2_plus, C_2_minus, k_0, k_1, k_2, so the
  -- dictionary-lookup branches select those coefficients
  let xPoverL ← qdiv x_P Lpp
  let beta_P := beta - xPoverL * r_dash
  let C_2 := if beta_P ≥ 0 then C_2_plus else C_2_minus
  let tmp := 1 - F.exp (-C_1 * |beta_P|) * (C_2 - 1)
  let w_P := 1 - (1 - w_P0) * (1 + tmp)
  let J ← advance_ratio w_P u nps
  let K_T := k_0 + k_1 * J + k_2 * J ^ 2
  let X_P := (1 - t_P) * rho * K_T * nps ^ 2 * D_p ^ 4
  -- hydrodynamic forces by steering (lines 203-245); gamma_R is None in
  -- the parameter set, so the sign-dependent coefficients apply
  let beta_R := beta - l_R * r_dash
  let gamma_R := if beta_R < 0 then gamma_R_minus else gamma_R_plus
  let v_R := U * gamma_R * beta_R
  let u_R ← rudder_inflow_u F u w_P J K_T
  let U_R := F.sqrt (u_R ^ 2 + v_R ^ 2)
  let alpha_R := rud_angle - F.atan2 v_R u_R
  let F_N := 0.5 * A_R * rho * f_alpha * U_R ^ 2 * F.sin alpha_R
  let X_R := -(1 - t_R) * F_N * F.sin rud_angle
  let Y_R := -(1 + a_H) * F_N * F.cos rud_angle
  let x_H := x_H_dash * Lpp
  let N_R := -(-0.5 + a_H * x_H) * F_N * F.cos rud_angle
  -- forces related to currents (lines 248-273)
  let (X_C, Y_C, N_C) := current_forces F u vm psi fl_psi fl_vel
  -- equation solving (lines 276-304)
  let X := X_H + X_R + X_P + X_C
  let Y := Y_H + Y_R + Y_C
  let N_M := N_H + N_R + N_C
  let d_u ← qdiv (X + (m + m_y) * vm * r + x_G * m * r ^ 2) (m + m_x)
  let q1 ← qdiv (x_G * m * N_M) fconst
  let q2 ← qdiv (x_G ^ 2 * m ^ 2 * u * r) fconst
  let d_vm_nom := Y - (m + m_x) * u * r - q1 + q2
  let q3 ← qdiv (x_G ^ 2 * m ^ 2) fconst
  let d_vm_den := m + m_y - q3
  let d_vm ← qdiv d_vm_nom d_vm_den
  let d_r ← qdiv (N_M - x_G * m * (d_vm + u * r)) fconst
  let d_v := d_vm + x_G * d_r
  some (d_u, d_v, d_r)

end KVLCC2

/-- State of one KVLCC2 vessel instance: pose `eta = (N, E, psi)`,
body-frame velocity `nu = (u, v, r)`, stored acceleration `nu_dot`, the
actuator attributes `rud_angle` and `nps`, and the per-instance simulation
settings. -/
structure VesselState where
  N : ℚ
  E : ℚ
  psi : ℚ
  u : ℚ
  v : ℚ
  r : ℚ
  nu_dot : ℚ × ℚ × ℚ
  rud_angle : ℚ
  nps : ℚ
  delta_t : ℚ
  N_max : ℚ
  E_max : ℚ
  length : ℚ
deriving Repr, DecidableEq

namespace KVLCC2

/-- The matrix-vector product `np.dot(_T_of_psi(psi), nu)` (lines 97-101):
world-frame velocity of a body-frame velocity vector. -/
def T_of_psi_mul (F : RealFns) (psi : ℚ) (nu : ℚ × ℚ × ℚ) : ℚ × ℚ × ℚ :=
  (F.cos psi * nu.1 - F.sin psi * nu.2.1,
   F.sin psi * nu.1 + F.cos psi * nu.2.1,
   nu.2.2)

/-- `_upd_dynamics` (lines 307-329): Euler update of the velocities,
trapezoidal update of the positions, then wrap of the heading to [0, 2π). -/
def upd_dynamics (F : RealFns) (s : VesselState) : Option VesselState := do
  let eta_dot_old := T_of_psi_mul F s.psi (s.u, s.v, s.r)
  let nudot ← mmg_dynamics F (s.u, s.v, s.r) s.psi s.rud_angle s.nps 0 (some 0)
  let u' := s.u + nudot.1 * s.delta_t
  let v' := s.v + nudot.2.1 * s.delta_t
  let r' := s.r + nudot.2.2 * s.delta_t
  let eta_dot_new := T_of_psi_mul F s.psi (u', v', r')
  some { s with
    N := s.N + 0.5 * (eta_dot_old.1 + eta_dot_new.1) * s.delta_t,
    E := s.E + 0.5 * (eta_dot_old.2.1 + eta_dot_new.2.1) * s.delta_t,
    psi := angle_to_2pi
      (s.psi + 0.5 * (eta_dot_old.2.2 + eta_dot_new.2.2) * s.delta_t),
    u := u', v := v', r := r',
    nu_dot := nudot }

/-- `_control` (lines 332-354): discrete rudder action 0/1/2, clipped to
±`rud_angle_max`; any other action fails the assertion. -/
def control (s : VesselState) (a : ℤ) : Except String VesselState :=
  if a = 0 ∨ a = 1 ∨ a = 2 then
    let ra := if a = 0 then s.rud_angle
      else if a = 1 then s.rud_angle + rud_angle_inc
      else s.rud_angle - rud_angle_inc;
    Except.ok { s with rud_angle := max (-rud_angle_max) (min ra rud_angle_max) }
  else Except.error "Unknown action."

/-- `_get_sideslip` (lines 357-361). -/
def get_sideslip (F : RealFns) (s : VesselState) : ℚ :=
  (polar_from_xy F (vm_from_v_r s.v s.r) s.u).2

/-- `_get_course` (lines 364-366): heading + sideslip, wrapped. -/
def get_course (F : RealFns) (s : VesselState) : ℚ :=
  angle_to_2pi (s.psi + get_sideslip F s)

/-- `_get_V` (lines 369-373): aggregated speed. -/
def get_V (F : RealFns) (s : VesselState) : ℚ :=
  F.sqrt (s.u ^ 2 + vm_from_v_r s.v s.r ^ 2)

/-- `_is_off_map` (lines 376-380). -/
def is_off_map (s : VesselState) : Bool :=
  s.N ≤ 0 ∨ s.N ≥ s.N_max ∨ s.E ≤ 0 ∨ s.E ≥ s.E_max

lemma Lpp_ne : Lpp ≠ 0 := by norm_num [Lpp]

lemma D_p_ne : D_p ≠ 0 := by norm_num [D_p]

lemma PI_ne : PI ≠ 0 := ne_of_gt PI_pos

lemma m_mx_ne : m + m_x ≠ 0 := by
  norm_num [m, m_x, m_x_dash, rho, Lpp, d]

lemma fconst_ne : fconst ≠ 0 := by
  norm_num [fconst, I_zG, J_z, J_z_dash, rho, Lpp, d, x_G, m]

lemma dvmden_ne : m + m_y - x_G ^ 2 * m ^ 2 / fconst ≠ 0 := by
  norm_num [m, m_y, m_y_dash, rho, Lpp, d, x_G, fconst, I_zG, J_z, J_z_dash]

lemma opt_bind_isSome {α β : Type} {x : Option α} {f : α → Option β}
    (hx : x.isSome) (hf : ∀ a, (f a).isSome) : (x >>= f).isSome := by
  cases x with
  | none => simp at hx
  | some a => simpa using hf a

lemma nondim_isSome (F : RealFns) (u vm r U : ℚ) :
    (nondim F u vm r U).isSome := by
  rw [nondim]
  split_ifs with h
  · rfl
  · simp [qdiv, h]

lemma advance_ratio_isSome (w_P u nps : ℚ) :
    (advance_ratio w_P u nps).isSome := by
  rw [advance_ratio]
  split_ifs with h
  · rfl
  · simp [qdiv, mul_ne_zero h D_p_ne]

lemma rudder_inflow_u_isSome (F : RealFns) (u w_P J K_T : ℚ) :
    (rudder_inflow_u F u w_P J K_T).isSome := by
  rw [rudder_inflow_u]
  split_ifs with h
  · rfl
  · simp [qdiv, mul_ne_zero PI_ne (pow_ne_zero 2 h)]

lemma mmg_dynamics_isSome (F : RealFns) (nu : ℚ × ℚ × ℚ)
    (psi rud_angle nps fl_psi : ℚ) (fl_vel : Option ℚ) :
    (mmg_dynamics F nu psi rud_angle nps fl_psi fl_vel).isSome := by
  obtain ⟨u, v, r⟩ := nu
  rw [mmg_dynamics]
  refine opt_bind_isSome (nondim_isSome _ _ _ _ _) ?_
  rintro ⟨beta, v_dash, r_dash⟩
  dsimp only
  refine opt_bind_isSome (by simp [qdiv, Lpp_ne]) ?_
  intro xPoverL
  dsimp only
  refine opt_bind_isSome (advance_ratio_isSome _ _ _) ?_
  intro J
  dsimp only
  refine opt_bind_isSome (rudder_inflow_u_isSome _ _ _ _ _) ?_
  · intro u_R
    dsimp only
    refine opt_bind_isSome (by simp [qdiv, m_mx_ne]) ?_
    intro d_u
    dsimp only
    refine opt_bind_isSome (by simp [qdiv, fconst_ne]) ?_
    intro q1
    dsimp only
    refine opt_bind_isSome (by simp [qdiv, fconst_ne]) ?_
    intro q2
    dsimp only
    have hq3 : qdiv (x_G ^ 2 * m ^ 2) fconst
        = some (x_G ^ 2 * m ^ 2 / fconst) := by
      simp [qdiv, fconst_ne]
    rw [hq3, Option.bind_eq_bind, Option.some_bind]
    refine opt_bind_isSome (by simp [qdiv, dvmden_ne]) ?_
    intro d_vm
    exact opt_bind_isSome (by simp [qdiv, fconst_ne]) (fun d_r => rfl)

end KVLCC2

/-! ## Stable sort helper

Embeds Python's stable `sorted(..., key=...)` / `np.argsort` as a
structural insertion sort (ascending in the key; stability: an element is
inserted behind all earlier elements with a key `≤` its own). -/

def insertAsc {α : Type} (key : α → ℚ) (a : α) : List α → List α
  | [] => [a]
  | b :: bs => if key a ≤ key b then a :: b :: bs else b :: insertAsc key a bs

def sortByKey {α : Type} (key : α → ℚ) : List α → List α
  | [] => []
  | a :: as => insertAsc key a (sortByKey key as)

lemma length_insertAsc {α : Type} (key : α → ℚ) (a : α) (l : List α) :
    (insertAsc key a l).length = l.length + 1 := by
  induction l with
  | nil => rfl
  | cons b bs ih =>
    rw [insertAsc]
    split_ifs
    · rfl
    · simp [ih]

lemma length_sortByKey {α : Type} (key : α → ℚ) (l : List α) :
    (sortByKey key l).length = l.length := by
  induction l with
  | nil => rfl
  | cons a as ih => rw [sortByKey, length_insertAsc, ih, List.length_cons]

/-! ## FossenEnv, from `FossenEnv.py`

The own ship and the target ships of this environment are `CyberShipII`
instances (`FossenCS2.py`, not part of the source tree under
verification); their kinematic helpers `_get_V`, `_get_course` and
`_is_off_map` are modelled from the spec as the same formulas as the
KVLCC2 ones embedded above, and an explicit `length` hull parameter is
carried in `VesselState`. -/

namespace FossenEnv

-- Simulation settings (lines 25-52 of FossenEnv.py).
def delta_t : ℚ := 0.5
def N_max : ℚ := 200
def E_max : ℚ := 200
def sight : ℚ := 100
def coll_dist : ℚ := 6.275
def TCPA_crit : ℚ := 120
def min_dist_spawn_TS : ℚ := 20
def goal_reach_dist : ℚ := 10
def stop_spawn_dist : ℚ := 5 * goal_reach_dist
def num_obs_OS : ℕ := 9
def num_obs_TS : ℕ := 6

/-- Configuration produced by `FossenEnv.__init__` (lines 21-77):
`action_space_n` is only assigned for the three supported control
approaches (line 66-67); it stays unset otherwise. -/
structure Config where
  N_TSs_max : ℕ
  N_TSs_random : Bool
  N_TSs_increasing : Bool
  cnt_approach : String
  state_design : String
  obs_size : ℕ
  action_space_n : Option ℕ
deriving Repr, DecidableEq

/-- `FossenEnv.__init__` (lines 21-77): the two assertions followed by the
observation/action space setup. -/
def init (N_TSs_max : ℕ) (N_TSs_random N_TSs_increasing : Bool)
    (cnt_approach state_design : String) : Except String Config :=
  if ¬((cond N_TSs_random 1 0 + cond N_TSs_increasing 1 0 : ℕ) ≤ 1) then
    Except.error ("Either random number of TS or schedule, not both.")
  else if ¬(state_design = "maxRisk" ∨ state_design = "RecDQN") then
    Except.error ("Unknown state design for FossenEnv.")
  else
    Except.ok
      { N_TSs_max := N_TSs_max
        N_TSs_random := N_TSs_random
        N_TSs_increasing := N_TSs_increasing
        cnt_approach := cnt_approach
        state_design := state_design
        obs_size :=
          if state_design = "RecDQN" then num_obs_OS + N_TSs_max * num_obs_TS
          else num_obs_OS + num_obs_TS
        action_space_n :=
          if cnt_approach = "tau" ∨ cnt_approach = "rps_angle"
              ∨ cnt_approach = "f123" then some 3
          else none }

/-- `_get_COLREG_situation` (lines 777-845).  The arguments are the
quantities the method computes in lines 795-817 from the two vessel
states via the geometry helpers: the Euclidean distance OS-TS, the
relative bearing from OS to TS, the relative bearing from TS to OS, the
heading intersection angle, the projection `V_rel` of the OS velocity on
the TS velocity direction, and the TS speed.  The returned code is
0 = none, 1 = head-on, 2 = starboard crossing (small), 3 = starboard
crossing (large), 4 = portside crossing, 5 = overtaking. -/
def colreg_situation (dist bng_OS bng_TS C_T V_rel V_TS : ℚ) : ℕ :=
  if dist > sight then 0
  else if -5 ≤ rtd (angle_to_pi bng_OS) ∧ rtd (angle_to_pi bng_OS) ≤ 5
      ∧ 175 ≤ rtd C_T ∧ rtd C_T ≤ 185 then 1
  else if 5 ≤ rtd bng_OS ∧ rtd bng_OS ≤ 45
      ∧ 185 ≤ rtd C_T ∧ rtd C_T ≤ 210 then 2
  else if 45 < rtd bng_OS ∧ rtd bng_OS ≤ 112.5
      ∧ 210 < rtd C_T ∧ rtd C_T ≤ 292.5 then 3
  else if 247.5 ≤ rtd bng_OS ∧ rtd bng_OS ≤ 355
      ∧ 67.5 ≤ rtd C_T ∧ rtd C_T ≤ 175 then 4
  else if 112.5 ≤ rtd bng_TS ∧ rtd bng_TS ≤ 247.5
      ∧ -67.5 ≤ rtd (angle_to_pi C_T) ∧ rtd (angle_to_pi C_T) ≤ 67.5
      ∧ V_rel > V_TS then 5
  else 0

/-- The classifier exactly as the specification words it (§4.3/§8 of the
spec), for the refinement comparison with `colreg_situation`: the
starboard-crossing-small window uses the spec's half-open boundaries
(5°, 45°] × (185°, 210°]; all other windows coincide with the code. -/
def colreg_spec (dist bng_OS bng_TS C_T V_rel V_TS : ℚ) : ℕ :=
  if dist > sight then 0
  else if -5 ≤ rtd (angle_to_pi bng_OS) ∧ rtd (angle_to_pi bng_OS) ≤ 5
      ∧ 175 ≤ rtd C_T ∧ rtd C_T ≤ 185 then 1
  else if 5 < rtd bng_OS ∧ rtd bng_OS ≤ 45
      ∧ 185 < rtd C_T ∧ rtd C_T ≤ 210 then 2
  else if 45 < rtd bng_OS ∧ rtd bng_OS ≤ 112.5
      ∧ 210 < rtd C_T ∧ rtd C_T ≤ 292.5 then 3
  else if 247.5 ≤ rtd bng_OS ∧ rtd bng_OS ≤ 355
      ∧ 67.5 ≤ rtd C_T ∧ rtd C_T ≤ 175 then 4
  else if 112.5 ≤ rtd bng_TS ∧ rtd bng_TS ≤ 247.5
      ∧ -67.5 ≤ rtd (angle_to_pi C_T) ∧ rtd (angle_to_pi C_T) ≤ 67.5
      ∧ V_rel > V_TS then 5
  else 0

/-- Acceptance test of the `_get_TS` rejection loop (lines 332-338): a
candidate is accepted when no target ship is placed yet, or when the
minimum distance of its spawn position to every placed target ship is at
least `min_dist_spawn_TS`. -/
def spawn_accept (F : RealFns) (TSs : List VesselState) (c : VesselState) : Bool :=
  TSs.isEmpty ||
    match (TSs.map (fun t => ED F c.N c.E t.N t.E true)).min? with
    | some mn => decide (min_dist_spawn_TS ≤ mn)
    | none => true

/-- `_get_TS` (lines 197-339): the control-approach assertion, then the
rejection-sampling loop.  The RNG-driven candidate construction (steps
1-4 of the algorithm) is abstracted as the stream `cands` of candidate
vessels the loop draws from; the loop returns the first accepted
candidate (`none` embeds a loop that never exits within the stream). -/
def get_TS (F : RealFns) (cnt_approach : String) (TSs : List VesselState)
    (cands : List VesselState) : Except String (Option VesselState) :=
  if cnt_approach = "tau" ∨ cnt_approach = "f123" then
    Except.ok (cands.find? (spawn_accept F TSs))
  else
    Except.error ("TS spawning only implemented for tau and f123 controls.")

/-- `_handle_respawn` (lines 536-587).  `newTS` stands for the freshly
generated vessel the method obtains from `_get_TS` when it decides to
respawn. -/
def handle_respawn (F : RealFns) (OS : VesselState) (goalN goalE : ℚ)
    (TS newTS : VesselState) (respawn mirrow clip : Bool) :
    Except String (VesselState × Bool) :=
  if ¬((cond respawn 1 0 + cond mirrow 1 0 + cond clip 1 0 : ℕ) ≤ 1) then
    Except.error ("Can choose either respawn, mirrow, or clip, not a combination.")
  else if ED F OS.N OS.E goalN goalE true > stop_spawn_dist then
    if KVLCC2.is_off_map TS then
      if respawn then Except.ok (newTS, true)
      else if mirrow then
        let TS' := if TS.E ≤ 0 ∨ TS.E ≥ TS.E_max
          then { TS with psi := 2 * PI - TS.psi }
          else { TS with psi := PI - TS.psi };
        Except.ok (TS', false)
      else if clip then
        Except.ok ({ TS with N := min (max TS.N 0) TS.N_max,
                             E := min (max TS.E 0) TS.E_max }, false)
      else Except.ok (TS, false)
    else
      let TCPA_TS := tcpa F OS.N OS.E TS.N TS.E (KVLCC2.get_course F OS)
        (KVLCC2.get_course F TS) (KVLCC2.get_V F OS) (KVLCC2.get_V F TS);
      if TCPA_TS < -0.1 * TCPA_crit ∨ TCPA_TS > 1.25 * TCPA_crit then
        Except.ok (newTS, true)
      else Except.ok (TS, false)
  else Except.ok (TS, false)

/-- `_get_ship_domain` (lines 753-774): simplified power-law ship domain. -/
def get_ship_domain (F : RealFns) (OS TS : VesselState) : ℚ :=
  let VOS := KVLCC2.get_V F OS;
  let VTS := KVLCC2.get_V F TS;
  let chiOS := KVLCC2.get_course F OS;
  let chiTS := KVLCC2.get_course F TS;
  let vOS := xy_from_polar F VOS chiOS;
  let vTS := xy_from_polar F VTS chiTS;
  let VR := F.sqrt ((vTS.2 - vOS.2) ^ 2 + (vTS.1 - vOS.1) ^ 2);
  let V := max VOS VR;
  OS.length * F.rpow V 1.26 + 30 * V

/-- The six per-target-ship features of `_set_state` (lines 419-439):
normalized distance, relative bearing, heading intersection, speed,
COLREG mode, inside-domain flag. -/
def TS_features (F : RealFns) (OS TS : VesselState) (sigma : ℕ) : List ℚ :=
  [ED F OS.N OS.E TS.N TS.E true / E_max,
   angle_to_pi (bng_rel F OS.N OS.E TS.N TS.E OS.psi true) / PI,
   angle_to_pi (head_inter OS.psi TS.psi) / PI,
   KVLCC2.get_V F TS,
   (sigma : ℚ),
   if ED F OS.N OS.E TS.N TS.E true ≤ get_ship_domain F OS TS then 1 else 0]

/-- The per-target block of `_set_state` (lines 403-474).  An observation
entry is an `Option ℚ`: `some q` is an ordinary float, `none` is the
`np.nan` sentinel used to pad absent targets.  `tss` pairs each target
ship with its stored COLREG situation; `none` as a result embeds the
`np.pad` error on a negative pad width (impossible while the target count
stays within `N_TSs_max`). -/
def set_state_TSs (F : RealFns) (OS : VesselState)
    (tss : List (VesselState × ℕ)) (state_design : String) (N_TSs_max : ℕ) :
    Option (List (Option ℚ)) :=
  let in_sight := tss.filter (fun p => ED F OS.N OS.E p.1.N p.1.E true ≤ sight);
  let pairs := in_sight.map (fun p =>
    (ED F OS.N OS.E p.1.N p.1.E true / get_ship_domain F OS p.1,
     TS_features F OS p.1 p.2));
  if pairs.isEmpty then
    if state_design = "RecDQN" then
      some (List.replicate (num_obs_TS * N_TSs_max) none)
    else some (List.replicate num_obs_TS (some 0))
  else
    let sorted := ((sortByKey (fun q => -q.1) pairs).map Prod.snd);
    if state_design = "RecDQN" then
      let flat := (sorted.map (fun l => l.map some)).flatten;
      let desired := num_obs_TS * N_TSs_max;
      if flat.length ≤ desired then
        some (flat ++ List.replicate (desired - flat.length) none)
      else none
    else some ((sorted.getLastD []).map some)

/-- The independently computed reward terms of `_calculate_reward`
(lines 589-652).  `tss` pairs each target ship with its stored COLREG
situation and its respawn flag. -/
def r_dist (F : RealFns) (OS : VesselState) (goalN goalE : ℚ) : ℚ :=
  -(ED F OS.N OS.E goalN goalE true) / E_max

def r_head (F : RealFns) (OS : VesselState) (goalN goalE : ℚ) : ℚ :=
  -3 * |angle_to_pi (bng_rel F OS.N OS.E goalN goalE OS.psi true)| / PI

def r_coll_TS (F : RealFns) (OS : VesselState) (TS : VesselState) : ℚ :=
  if ED F OS.N OS.E TS.N TS.E true ≤ coll_dist then -10 else 0

def r_COLREG_TS (F : RealFns) (OS : VesselState)
    (t : VesselState × ℕ × Bool) : ℚ :=
  if ¬t.2.2
      ∧ ED F OS.N OS.E t.1.N t.1.E true ≤ sight
      ∧ 0 ≤ tcpa F OS.N OS.E t.1.N t.1.E (KVLCC2.get_course F OS)
          (KVLCC2.get_course F t.1) (KVLCC2.get_V F OS) (KVLCC2.get_V F t.1) then
    if (t.2.1 = 1 ∨ t.2.1 = 2) ∧ OS.r < 0 then -3
    else if t.2.1 = 3 ∧ OS.r > 0 then -3
    else 0
  else 0

def r_comf (OS : VesselState) : ℚ := -10 * |OS.r| ^ 2

/-- `_calculate_reward` (lines 589-652), translated with the single loop
over the target ships accumulating the collision and COLREG penalties. -/
def calculate_reward (F : RealFns) (OS : VesselState) (goalN goalE : ℚ)
    (tss : List (VesselState × ℕ × Bool))
    (w_dist w_head w_coll w_COLREG w_comf : ℚ) : ℚ :=
  let rd := r_dist F OS goalN goalE;
  let rh := r_head F OS goalN goalE;
  let rcc := tss.foldl (fun acc t =>
    (acc.1 + r_coll_TS F OS t.1, acc.2 + r_COLREG_TS F OS t)) ((0 : ℚ), (0 : ℚ));
  let rco := r_comf OS;
  w_dist * rd + w_head * rh + w_coll * rcc.1 + w_COLREG * rcc.2 + w_comf * rco

end FossenEnv

/-! ## HHOS path-planning environment, from `HHOS_PathPlanning_Env.py`

The ship-domain helper `get_ship_domain(A, B, C, D, OS, TS)` (four-
parameter ellipse form) lives in `HHOS_Env.py`, which is not part of the
source tree under verification; it is abstracted as an opaque function
argument `domainFn`. -/

namespace HHOS

def d_head_scale : ℚ := dtr 10
def surge_scale : ℚ := 0.5
def surge_min : ℚ := 0.1
def surge_max : ℚ := 5.0
def desired_V : ℚ := 3.0
def num_obs_TS : ℕ := 6

/-- The state-design assertion of `HHOS_PathPlanning_Env.__init__`
(line 21). -/
def planning_init (state_design : String) : Except String Unit :=
  if state_design = "recursive" ∨ state_design = "conventional" then
    Except.ok ()
  else Except.error ("Unknown state design for the HHOS-planner.")

/-- `_manual_heading_control` (lines 116-121). -/
def manual_heading_control (s : VesselState) (a : ℚ) :
    Except String VesselState :=
  if -1 ≤ a ∧ a ≤ 1 then
    Except.ok { s with psi := angle_to_2pi (s.psi + a * d_head_scale) }
  else Except.error ("Unknown action.")

/-- A target ship of the HHOS environment: vessel state plus the traffic
attributes read by the state and reward builders. -/
structure TSInfo where
  vessel : VesselState
  rev_dir : Bool
  speedy : Bool

/-- The ghost-ship padding entry of `_set_state` (line 218). -/
def ghost : List ℚ := [0, -1, -1, 0, -1, -1]

/-- The six per-target-ship features of `_set_state` (lines 169-197). -/
def TS_features (F : RealFns) (domainFn : VesselState → VesselState → ℚ)
    (thrust : Bool) (glo_pi_path : ℚ) (OS : VesselState) (T : TSInfo) :
    List ℚ :=
  let D := domainFn OS T.vessel;
  let ED_OS_TS := (ED F OS.N OS.E T.vessel.N T.vessel.E true - D)
    / (20 * KVLCC2.Lpp);
  [min (max (1 - ED_OS_TS) 0) 1,
   bng_rel F OS.N OS.E T.vessel.N T.vessel.E OS.psi false / PI,
   angle_to_pi (T.vessel.psi - glo_pi_path) / PI,
   if thrust then KVLCC2.get_V F T.vessel - desired_V
     else KVLCC2.get_V F T.vessel / desired_V,
   if T.rev_dir then -1 else 1,
   if T.speedy then 1 else -1]

/-- The per-target block of `_set_state` in the implemented
`conventional` state design (lines 215-221): pad ghost ships up to
`N_TSs_max`, sort by ascending closeness, flatten.  `none` embeds the
divergence of the `while` padding loop when more than `N_TSs_max` target
ships are present. -/
def set_state_TSs (F : RealFns) (domainFn : VesselState → VesselState → ℚ)
    (thrust : Bool) (glo_pi_path : ℚ) (OS : VesselState)
    (tss : List TSInfo) (N_TSs_max : ℕ) : Option (List ℚ) :=
  let feats := tss.map (TS_features F domainFn thrust glo_pi_path OS);
  if feats.length ≤ N_TSs_max then
    some ((sortByKey (fun l => l.headI)
      (feats ++ List.replicate (N_TSs_max - feats.length) ghost)).flatten)
  else none

/-- The path-following and comfort/speed reward terms of
`_calculate_reward` (lines 259-278). -/
def r_ye (F : RealFns) (glo_ye : ℚ) : ℚ := F.exp (-(0.05) * |glo_ye|)

def r_ce (OS : VesselState) (glo_pi_path : ℚ) : ℚ :=
  if |angle_to_pi (OS.psi - glo_pi_path)| ≥ PI / 2 then -10 else 0

def r_comf (a1 : ℚ) : ℚ := -(a1 ^ 2)

def r_speed (OS : VesselState) : ℚ := max (-((OS.u - desired_V) ^ 2)) (-1)

/-- The per-target-ship collision-avoidance penalty of
`_calculate_reward` (lines 284-315): domain-violation term plus the
traffic-rule terms. -/
def r_coll_TS (F : RealFns) (domainFn : VesselState → VesselState → ℚ)
    (OS : VesselState) (T : TSInfo) : ℚ :=
  let D := domainFn OS T.vessel;
  let ED_OS_TS := ED F OS.N OS.E T.vessel.N T.vessel.E true;
  let base := if ED_OS_TS ≤ D then (-10 : ℚ)
    else -(F.exp (-(ED_OS_TS - D) / 200));
  let bng_pers := bng_rel F T.vessel.N T.vessel.E OS.N OS.E T.vessel.psi true;
  let rule :=
    if T.speedy then
      if dtr 180 ≤ bng_pers ∧ bng_pers ≤ dtr 270
          ∧ ED_OS_TS ≤ 10 * KVLCC2.Lpp then (-10 : ℚ) else 0
    else if T.rev_dir then
      if dtr 0 ≤ bng_pers ∧ bng_pers ≤ dtr 90
          ∧ ED_OS_TS ≤ 10 * KVLCC2.Lpp then (-10 : ℚ) else 0
    else
      if dtr 90 ≤ bng_pers ∧ bng_pers ≤ dtr 180 then
        if ED_OS_TS ≤ (10 - 5 / PI * bng_pers) * KVLCC2.Lpp then (-10 : ℚ)
        else 0
      else 0;
  base + rule

/-- The full collision-avoidance term `r_coll` including the
hit-ground penalty (lines 281-319). -/
def r_coll (F : RealFns) (domainFn : VesselState → VesselState → ℚ)
    (OS : VesselState) (tss : List TSInfo) (H critical_depth : ℚ) : ℚ :=
  (tss.foldl (fun acc T => acc + r_coll_TS F domainFn OS T) 0)
    + (if H ≤ critical_depth then -10 else 0)

/-- `_calculate_reward` (lines 259-329): weighted sum of the terms,
normalised by the weight sum, 0 when the weights sum to zero.  The
comfort and speed terms only participate when the planner also controls
thrust (`thrust_control_planner`). -/
def calculate_reward (F : RealFns) (domainFn : VesselState → VesselState → ℚ)
    (thrust : Bool) (a1 glo_ye glo_pi_path : ℚ) (OS : VesselState)
    (tss : List TSInfo) (H critical_depth : ℚ)
    (w_ye w_ce w_coll w_comf w_speed : ℚ) : ℚ :=
  let rye := r_ye F glo_ye;
  let rce := r_ce OS glo_pi_path;
  let rcoll := r_coll F domainFn OS tss H critical_depth;
  let wsum := w_ye + w_ce + w_coll + (if thrust then w_comf + w_speed else 0);
  let total := w_ye * rye + w_ce * rce + w_coll * rcoll
    + (if thrust then w_comf * r_comf a1 + w_speed * r_speed OS else 0);
  if wsum ≠ 0 then total / wsum else 0

end HHOS

/-! ## DQN agent construction, from `dqn_agent_MinAtar.py` -/

namespace DQNAgent

/-- The assertion sequence of `CNN_DQN_Agent.__init__` (lines 67-128):
mode check, prior-weights check for test mode, state-shape check,
n-steps check, device check, and the input-normalizer prior check. -/
def init (mode : String) (dqn_weights : Option String)
    (state_shape_len : ℕ) (state_shape_is_tuple : Bool) (n_steps : ℤ)
    (device : String) (input_norm : Bool) (input_norm_prior : Option String) :
    Except String Unit :=
  if ¬(mode = "train" ∨ mode = "test") then
    Except.error ("Unknown mode. Should be train or test.")
  else if mode = "test" ∧ dqn_weights = none then
    Except.error ("Need prior weights in test mode.")
  else if ¬(state_shape_len = 3 ∧ state_shape_is_tuple) then
    Except.error ("state_shape should be: (height, width, in_channels)")
  else if ¬(1 ≤ n_steps) then
    Except.error ("n_steps should not be smaller than 1.")
  else if ¬(device = "cpu" ∨ device = "cuda") then
    Except.error ("Unknown device.")
  else if input_norm ∧ mode = "test" ∧ input_norm_prior = none then
    Except.error ("Please supply input_norm_prior in test mode with input normalization.")
  else Except.ok ()

end DQNAgent

/-! ## Test fixtures and general helper lemmas -/

/-- A sample instantiation of the external real-function primitives, used
to evaluate the embedded code on concrete inputs (every theorem quantifies
over arbitrary `RealFns`; this instance only witnesses satisfiability). -/
def testFns : RealFns :=
  { sqrt := fun _ => 0, atan2 := fun _ _ => 0, exp := fun _ => 0,
    cos := fun _ => 0, sin := fun _ => 0, rpow := fun _ _ => 0 }

/-- A sample vessel state at the origin and at rest. -/
def sampleShip : VesselState :=
  { N := 0, E := 0, psi := 0, u := 0, v := 0, r := 0, nu_dot := (0, 0, 0),
    rud_angle := 0, nps := 0, delta_t := 1/2, N_max := 200, E_max := 200,
    length := 1255/1000 }

/-- A second sample vessel state, 30 m north of the first. -/
def sampleShip2 : VesselState :=
  { sampleShip with N := 30 }

lemma foldl_pair_sum {α : Type} (f g : α → ℚ) (l : List α) (a b : ℚ) :
    l.foldl (fun acc t => (acc.1 + f t, acc.2 + g t)) (a, b)
      = (a + (l.map f).sum, b + (l.map g).sum) := by
  induction l generalizing a b with
  | nil => simp
  | cons x xs ih => simp [ih, add_assoc]

lemma foldl_add_sum {α : Type} (f : α → ℚ) (l : List α) (a : ℚ) :
    l.foldl (fun acc t => acc + f t) a = a + (l.map f).sum := by
  induction l generalizing a with
  | nil => simp
  | cons x xs ih => simp [ih, add_assoc]

lemma mem_insertAsc {α : Type} {key : α → ℚ} {a x : α} {l : List α} :
    x ∈ insertAsc key a l → x = a ∨ x ∈ l := by
  induction l with
  | nil => simp [insertAsc]
  | cons b bs ih =>
    rw [insertAsc]
    split_ifs
    · intro h
      simpa using h
    · intro h
      rcases List.mem_cons.mp h with h | h
      · exact Or.inr (by simp [h])
      · rcases ih h with h | h
        · exact Or.inl h
        · exact Or.inr (List.mem_cons_of_mem _ h)

lemma mem_sortByKey {α : Type} {key : α → ℚ} {x : α} {l : List α} :
    x ∈ sortByKey key l → x ∈ l := by
  induction l with
  | nil => simp [sortByKey]
  | cons a as ih =>
    rw [sortByKey]
    intro h
    rcases mem_insertAsc h with h | h
    · simp [h]
    · exact List.mem_cons_of_mem _ (ih h)

lemma length_flatten_const {α β : Type} (f : α → List β) (k : ℕ) (l : List α)
    (h : ∀ x ∈ l, (f x).length = k) :
    ((l.map f).flatten).length = k * l.length := by
  induction l with
  | nil => simp
  | cons x xs ih =>
    rw [List.map_cons, List.flatten_cons, List.length_append,
      h x (List.mem_cons_self _ _), ih (fun y hy => h y (List.mem_cons_of_mem _ hy)),
      List.length_cons]
    ring

lemma foldl_min_le_init (as : List ℚ) (a : ℚ) : as.foldl min a ≤ a := by
  induction as generalizing a with
  | nil => simp
  | cons x xs ih => exact le_trans (ih _) (min_le_left _ _)

lemma foldl_min_le_mem {b : ℚ} {as : List ℚ} (h : b ∈ as) (a : ℚ) :
    as.foldl min a ≤ b := by
  induction as generalizing a with
  | nil => simp at h
  | cons x xs ih =>
    rcases List.mem_cons.mp h with rfl | h
    · exact le_trans (foldl_min_le_init xs (min a b)) (min_le_right a b)
    · exact ih h _

lemma min?_le_mem {l : List ℚ} {mn b : ℚ} (h : l.min? = some mn) (hb : b ∈ l) :
    mn ≤ b := by
  cases l with
  | nil => simp at hb
  | cons a as =>
    have : mn = as.foldl min a := by
      have := h
      simp only [List.min?] at this
      exact (Option.some_inj.mp this).symm
    subst this
    rcases List.mem_cons.mp hb with rfl | hb
    · exact foldl_min_le_init _ _
    · exact foldl_min_le_mem hb _

lemma upd_dynamics_unfold (F : RealFns) (s : VesselState) (du dv dr : ℚ)
    (h : KVLCC2.mmg_dynamics F (s.u, s.v, s.r) s.psi s.rud_angle s.nps 0
      (some 0) = some (du, dv, dr)) :
    KVLCC2.upd_dynamics F s = some
      { s with
        u := s.u + du * s.delta_t,
        v := s.v + dv * s.delta_t,
        r := s.r + dr * s.delta_t,
        N := s.N + 0.5 * ((KVLCC2.T_of_psi_mul F s.psi (s.u, s.v, s.r)).1
          + (KVLCC2.T_of_psi_mul F s.psi
              (s.u + du * s.delta_t, s.v + dv * s.delta_t,
               s.r + dr * s.delta_t)).1) * s.delta_t,
        E := s.E + 0.5 * ((KVLCC2.T_of_psi_mul F s.psi (s.u, s.v, s.r)).2.1
          + (KVLCC2.T_of_psi_mul F s.psi
              (s.u + du * s.delta_t, s.v + dv * s.delta_t,
               s.r + dr * s.delta_t)).2.1) * s.delta_t,
        psi := angle_to_2pi
          (s.psi + 0.5 * ((KVLCC2.T_of_psi_mul F s.psi (s.u, s.v, s.r)).2.2
            + (KVLCC2.T_of_psi_mul F s.psi
                (s.u + du * s.delta_t, s.v + dv * s.delta_t,
                 s.r + dr * s.delta_t)).2.2) * s.delta_t),
        nu_dot := (du, dv, dr) } := by
  rw [KVLCC2.upd_dynamics, h, Option.bind_eq_bind, Option.some_bind]

/-- Concrete evaluation: the MMG dynamics of a resting ship with zero
propeller revolution under the sample primitives is the zero
acceleration. -/
lemma mmg_at_rest :
    KVLCC2.mmg_dynamics testFns (0, 0, 0) 0 0 0 0 (some 0)
      = some (0, 0, 0) := by
  norm_num [KVLCC2.mmg_dynamics, KVLCC2.nondim, KVLCC2.advance_ratio,
    KVLCC2.rudder_inflow_u, KVLCC2.current_forces, KVLCC2.vm_from_v_r,
    qdiv, testFns, KVLCC2.Lpp_ne, KVLCC2.m_mx_ne, KVLCC2.fconst_ne,
    KVLCC2.dvmden_ne, KVLCC2.x_G, KVLCC2.x_P, KVLCC2.Lpp, KVLCC2.m,
    KVLCC2.m_x, KVLCC2.m_y, KVLCC2.fconst, KVLCC2.t_P, KVLCC2.rho,
    KVLCC2.D_p, KVLCC2.k_0, KVLCC2.k_1, KVLCC2.k_2, KVLCC2.w_P0,
    KVLCC2.C_1, KVLCC2.C_2_plus, KVLCC2.C_2_minus, KVLCC2.l_R,
    KVLCC2.gamma_R_plus, KVLCC2.gamma_R_minus, KVLCC2.A_R,
    KVLCC2.f_alpha, KVLCC2.t_R, KVLCC2.a_H, KVLCC2.x_H_dash, KVLCC2.d,
    KVLCC2.m_x_dash, KVLCC2.m_y_dash, KVLCC2.J_z, KVLCC2.J_z_dash,
    KVLCC2.I_zG, KVLCC2.R_0_dash]

/-- Concrete evaluation: one dynamics update of the resting sample ship
leaves it unchanged. -/
lemma upd_at_rest :
    KVLCC2.upd_dynamics testFns sampleShip = some sampleShip := by
  have h := upd_dynamics_unfold testFns sampleShip 0 0 0
    (by simpa [sampleShip] using mmg_at_rest)
  rw [h]
  norm_num [sampleShip, KVLCC2.T_of_psi_mul, testFns, angle_to_2pi,
    rat_floor_eq_floor]

/-- Concrete evaluation: one manual heading-control step on the sample
ship turns it to `dtr 10`. -/
lemma mhc_sample :
    HHOS.manual_heading_control sampleShip 1
      = Except.ok { sampleShip with psi := dtr 10 } := by
  rw [HHOS.manual_heading_control, if_pos (by norm_num)]
  norm_num [sampleShip, HHOS.d_head_scale, angle_to_2pi,
    rat_floor_eq_floor, dtr, PI]

/-! ## Claim theorems -/

/-- C5: the MMG dynamics function defines the drift angle, the
non-dimensional lateral velocity and the non-dimensional yaw rate as zero
when the total speed `U = sqrt(u² + vm²)` is zero, defines the advance
ratio `J` as zero when the propeller revolution `nps` is zero, and with
those branch cases it never divides by zero: it evaluates totally (returns
`some`) on every input, the degenerate ones included. -/
theorem mmg_degenerate_cases_total :
    (∀ (F : RealFns) (u vm r : ℚ), KVLCC2.nondim F u vm r 0 = some (0, 0, 0))
    ∧ (∀ (w_P u : ℚ), KVLCC2.advance_ratio w_P u 0 = some 0)
    ∧ (∀ (F : RealFns) (nu : ℚ × ℚ × ℚ) (psi rud_angle nps fl_psi : ℚ)
        (fl_vel : Option ℚ),
        (KVLCC2.mmg_dynamics F nu psi rud_angle nps fl_psi fl_vel).isSome) :=
  ⟨fun F u vm r => by simp [KVLCC2.nondim],
   fun w_P u => by simp [KVLCC2.advance_ratio],
   fun F nu psi rud_angle nps fl_psi fl_vel =>
     KVLCC2.mmg_dynamics_isSome F nu psi rud_angle nps fl_psi fl_vel⟩

/-- C2: the stored heading lies in [0, 2π) after every dynamics update
(`KVLCC2._upd_dynamics` wraps the heading after the trapezoidal
integration step) and after every manual heading change
(`HHOS_PathPlanning_Env._manual_heading_control` wraps the adjusted
heading). -/
theorem heading_always_wrapped :
    (∀ (F : RealFns) (s s' : VesselState),
        KVLCC2.upd_dynamics F s = some s' → 0 ≤ s'.psi ∧ s'.psi < 2 * PI)
    ∧ (∀ (s : VesselState) (a : ℚ) (s' : VesselState),
        HHOS.manual_heading_control s a = Except.ok s' →
        0 ≤ s'.psi ∧ s'.psi < 2 * PI) := by
  constructor
  · intro F s s' h
    rw [KVLCC2.upd_dynamics] at h
    rcases hm : KVLCC2.mmg_dynamics F (s.u, s.v, s.r) s.psi s.rud_angle s.nps 0
        (some 0) with _ | nd
    · rw [hm] at h
      simp at h
    · rw [hm, Option.bind_eq_bind, Option.some_bind] at h
      have := Option.some_inj.mp h
      rw [← this]
      exact ⟨angle_to_2pi_nonneg _, angle_to_2pi_lt _⟩
  · intro s a s' h
    rw [HHOS.manual_heading_control] at h
    split_ifs at h
    · have := Except.ok.inj h
      rw [← this]
      exact ⟨angle_to_2pi_nonneg _, angle_to_2pi_lt _⟩

/-- Witness for C2: concrete evaluations of both updates, with the
heading bounds obtained by applying `heading_always_wrapped`. -/
theorem heading_always_wrapped_witness :
    (KVLCC2.upd_dynamics testFns sampleShip = some sampleShip
      ∧ 0 ≤ sampleShip.psi ∧ sampleShip.psi < 2 * PI)
    ∧ (HHOS.manual_heading_control sampleShip 1
        = Except.ok { sampleShip with psi := dtr 10 }
      ∧ 0 ≤ ({ sampleShip with psi := dtr 10 } : VesselState).psi
      ∧ ({ sampleShip with psi := dtr 10 } : VesselState).psi < 2 * PI) := by
  have h1 := upd_at_rest
  have h2 := mhc_sample
  exact ⟨⟨h1, heading_always_wrapped.1 testFns sampleShip sampleShip h1⟩,
         ⟨h2, heading_always_wrapped.2 sampleShip 1 _ h2⟩⟩

/-- C4: one dynamics update advances the body-frame velocity by exactly
one forward-Euler step with the acceleration computed from the pre-step
state, stores that acceleration, and advances the world-frame position by
the average of the world-frame velocities before and after the velocity
update times Δt (trapezoidal update, also applied to the heading before
wrapping) — not by a single Euler step on position. -/
theorem upd_dynamics_euler_trapezoidal (F : RealFns) (s : VesselState)
    (du dv dr : ℚ)
    (h : KVLCC2.mmg_dynamics F (s.u, s.v, s.r) s.psi s.rud_angle s.nps 0
      (some 0) = some (du, dv, dr)) :
    KVLCC2.upd_dynamics F s = some
      { s with
        u := s.u + du * s.delta_t,
        v := s.v + dv * s.delta_t,
        r := s.r + dr * s.delta_t,
        N := s.N + 0.5 * ((KVLCC2.T_of_psi_mul F s.psi (s.u, s.v, s.r)).1
          + (KVLCC2.T_of_psi_mul F s.psi
              (s.u + du * s.delta_t, s.v + dv * s.delta_t,
               s.r + dr * s.delta_t)).1) * s.delta_t,
        E := s.E + 0.5 * ((KVLCC2.T_of_psi_mul F s.psi (s.u, s.v, s.r)).2.1
          + (KVLCC2.T_of_psi_mul F s.psi
              (s.u + du * s.delta_t, s.v + dv * s.delta_t,
               s.r + dr * s.delta_t)).2.1) * s.delta_t,
        psi := angle_to_2pi
          (s.psi + 0.5 * ((KVLCC2.T_of_psi_mul F s.psi (s.u, s.v, s.r)).2.2
            + (KVLCC2.T_of_psi_mul F s.psi
                (s.u + du * s.delta_t, s.v + dv * s.delta_t,
                 s.r + dr * s.delta_t)).2.2) * s.delta_t),
        nu_dot := (du, dv, dr) } := by
  rw [KVLCC2.upd_dynamics, h, Option.bind_eq_bind, Option.some_bind]

/-- Witness for C4: the characterization applied to a concrete resting
state, whose acceleration evaluates to zero. -/
theorem upd_dynamics_euler_trapezoidal_witness :
    KVLCC2.mmg_dynamics testFns (sampleShip.u, sampleShip.v, sampleShip.r)
      sampleShip.psi sampleShip.rud_angle sampleShip.nps 0 (some 0)
      = some (0, 0, 0)
    ∧ KVLCC2.upd_dynamics testFns sampleShip = some
      { sampleShip with
        u := sampleShip.u + 0 * sampleShip.delta_t,
        v := sampleShip.v + 0 * sampleShip.delta_t,
        r := sampleShip.r + 0 * sampleShip.delta_t,
        N := sampleShip.N + 0.5
          * ((KVLCC2.T_of_psi_mul testFns sampleShip.psi
              (sampleShip.u, sampleShip.v, sampleShip.r)).1
            + (KVLCC2.T_of_psi_mul testFns sampleShip.psi
              (sampleShip.u + 0 * sampleShip.delta_t,
               sampleShip.v + 0 * sampleShip.delta_t,
               sampleShip.r + 0 * sampleShip.delta_t)).1) * sampleShip.delta_t,
        E := sampleShip.E + 0.5
          * ((KVLCC2.T_of_psi_mul testFns sampleShip.psi
              (sampleShip.u, sampleShip.v, sampleShip.r)).2.1
            + (KVLCC2.T_of_psi_mul testFns sampleShip.psi
              (sampleShip.u + 0 * sampleShip.delta_t,
               sampleShip.v + 0 * sampleShip.delta_t,
               sampleShip.r + 0 * sampleShip.delta_t)).2.1) * sampleShip.delta_t,
        psi := angle_to_2pi (sampleShip.psi + 0.5
          * ((KVLCC2.T_of_psi_mul testFns sampleShip.psi
              (sampleShip.u, sampleShip.v, sampleShip.r)).2.2
            + (KVLCC2.T_of_psi_mul testFns sampleShip.psi
              (sampleShip.u + 0 * sampleShip.delta_t,
               sampleShip.v + 0 * sampleShip.delta_t,
               sampleShip.r + 0 * sampleShip.delta_t)).2.2) * sampleShip.delta_t),
        nu_dot := ((0 : ℚ), (0 : ℚ), (0 : ℚ)) } := by
  have h : KVLCC2.mmg_dynamics testFns (sampleShip.u, sampleShip.v, sampleShip.r)
      sampleShip.psi sampleShip.rud_angle sampleShip.nps 0 (some 0)
      = some (0, 0, 0) := by simpa [sampleShip] using mmg_at_rest
  exact ⟨h, upd_dynamics_euler_trapezoidal testFns sampleShip 0 0 0 h⟩

/-- C10: whenever the own ship is within `stop_spawn_dist` of the goal,
`_handle_respawn` returns the given target vessel unchanged with respawn
flag `False`, regardless of the off-map status or the TCPA of the target
vessel. -/
theorem handle_respawn_stops_near_goal (F : RealFns) (OS : VesselState)
    (goalN goalE : ℚ) (TS newTS : VesselState) (respawn mirrow clip : Bool)
    (hflags : (cond respawn 1 0 + cond mirrow 1 0 + cond clip 1 0 : ℕ) ≤ 1)
    (hdist : ED F OS.N OS.E goalN goalE true ≤ FossenEnv.stop_spawn_dist) :
    FossenEnv.handle_respawn F OS goalN goalE TS newTS respawn mirrow clip
      = Except.ok (TS, false) := by
  rw [FossenEnv.handle_respawn, if_neg (not_not_intro hflags),
    if_neg (not_lt.mpr hdist)]

/-- Witness for C10: a concrete own ship sitting on the goal with an
off-map target vessel; the respawn handler still returns it unchanged. -/
theorem handle_respawn_stops_near_goal_witness :
    FossenEnv.handle_respawn testFns sampleShip 0 0
      { sampleShip2 with N := -50 } sampleShip2 true false false
      = Except.ok ({ sampleShip2 with N := -50 }, false) :=
  handle_respawn_stops_near_goal testFns sampleShip 0 0
    { sampleShip2 with N := -50 } sampleShip2 true false false
    (by decide)
    (by norm_num [ED, testFns, sampleShip, FossenEnv.stop_spawn_dist,
      FossenEnv.goal_reach_dist])

/-- A variant of the sample primitives whose square root is the identity,
giving nonzero concrete distances. -/
def idSqrtFns : RealFns := { testFns with sqrt := fun q => q }

/-- C7: whenever the target-ship generator returns a candidate while other
target ships are already placed, the distance from the candidate's spawn
position to every placed target ship is at least the configured minimum
spawn separation `min_dist_spawn_TS`. -/
theorem get_TS_min_separation (F : RealFns) (ca : String)
    (TSs cands : List VesselState) (c : VesselState)
    (h : FossenEnv.get_TS F ca TSs cands = Except.ok (some c))
    (hne : TSs ≠ []) :
    ∀ t ∈ TSs, FossenEnv.min_dist_spawn_TS ≤ ED F c.N c.E t.N t.E true := by
  rw [FossenEnv.get_TS] at h
  split_ifs at h with hca
  · have hfind : cands.find? (FossenEnv.spawn_accept F TSs) = some c :=
      Except.ok.inj h
    have hacc : FossenEnv.spawn_accept F TSs c = true := List.find?_some hfind
    rw [FossenEnv.spawn_accept] at hacc
    have hemp : TSs.isEmpty = false := by
      cases TSs with
      | nil => exact absurd rfl hne
      | cons a as => rfl
    rw [hemp, Bool.false_or] at hacc
    intro t ht
    have hmem : ED F c.N c.E t.N t.E true
        ∈ TSs.map (fun t => ED F c.N c.E t.N t.E true) :=
      List.mem_map_of_mem _ ht
    rcases hmn : (TSs.map (fun t => ED F c.N c.E t.N t.E true)).min?
        with _ | mn
    · cases TSs with
      | nil => exact absurd rfl hne
      | cons a as => simp [List.min?] at hmn
    · rw [hmn] at hacc
      simp only [decide_eq_true_eq] at hacc
      exact le_trans hacc (min?_le_mem hmn hmem)

/-- Witness for C7: a concrete accepted candidate 30 m away from the one
placed target ship. -/
theorem get_TS_min_separation_witness :
    FossenEnv.get_TS idSqrtFns "tau" [sampleShip2] [sampleShip]
      = Except.ok (some sampleShip)
    ∧ ∀ t ∈ [sampleShip2],
        FossenEnv.min_dist_spawn_TS
          ≤ ED idSqrtFns sampleShip.N sampleShip.E t.N t.E true := by
  have h : FossenEnv.get_TS idSqrtFns "tau" [sampleShip2] [sampleShip]
      = Except.ok (some sampleShip) := by
    rw [FossenEnv.get_TS, if_pos (Or.inl rfl)]
    have hp : FossenEnv.spawn_accept idSqrtFns [sampleShip2] sampleShip
        = true := by
      rw [FossenEnv.spawn_accept]
      norm_num [List.min?, ED, idSqrtFns, testFns, sampleShip, sampleShip2,
        FossenEnv.min_dist_spawn_TS]
    simp [List.find?, hp]
  exact ⟨h, get_TS_min_separation idSqrtFns "tau" [sampleShip2] [sampleShip]
    sampleShip h (by simp)⟩

/-- C9 counterexample: constructing a `FossenEnv` with the unsupported
control-approach string `"bogus"` does not fail — the constructor returns
normally (with the action space left unset), so an unsupported
control-approach string is NOT rejected at construction time. -/
theorem fossen_init_accepts_unknown_cnt_approach :
    FossenEnv.init 3 false false "bogus" "RecDQN"
      = Except.ok
          { N_TSs_max := 3, N_TSs_random := false, N_TSs_increasing := false,
            cnt_approach := "bogus", state_design := "RecDQN",
            obs_size := 27, action_space_n := none } := by
  rw [FossenEnv.init, if_neg (by decide), if_neg (by decide), if_pos rfl,
    if_neg (by decide)]
  norm_num [FossenEnv.num_obs_OS, FossenEnv.num_obs_TS]

/-- C9 (amended): the configuration errors the code does check are
rejected with an error: an agent with a mode outside train/test, an agent
in test mode without prior weights, an environment with an unsupported
state-design string, a discrete control action outside 0/1/2, more than
one respawn-policy flag, and — at target-ship-generation (call) time, not
at construction — an unsupported control-approach string. -/
theorem config_errors_rejected :
    (∀ (mode : String) (w : Option String) (sl : ℕ) (st : Bool) (ns : ℤ)
        (dev : String) (inorm : Bool) (ipr : Option String),
        ¬(mode = "train" ∨ mode = "test") →
        ∃ msg, DQNAgent.init mode w sl st ns dev inorm ipr
          = Except.error msg)
    ∧ (∀ (sl : ℕ) (st : Bool) (ns : ℤ) (dev : String) (inorm : Bool)
        (ipr : Option String),
        ∃ msg, DQNAgent.init "test" none sl st ns dev inorm ipr
          = Except.error msg)
    ∧ (∀ (n : ℕ) (r i : Bool) (ca sd : String),
        ¬(sd = "maxRisk" ∨ sd = "RecDQN") →
        ∃ msg, FossenEnv.init n r i ca sd = Except.error msg)
    ∧ (∀ (s : VesselState) (a : ℤ), ¬(a = 0 ∨ a = 1 ∨ a = 2) →
        ∃ msg, KVLCC2.control s a = Except.error msg)
    ∧ (∀ (F : RealFns) (OS : VesselState) (gN gE : ℚ)
        (TS newTS : VesselState) (r mi cl : Bool),
        ¬((cond r 1 0 + cond mi 1 0 + cond cl 1 0 : ℕ) ≤ 1) →
        ∃ msg, FossenEnv.handle_respawn F OS gN gE TS newTS r mi cl
          = Except.error msg)
    ∧ (∀ (F : RealFns) (TSs cands : List VesselState) (ca : String),
        ¬(ca = "tau" ∨ ca = "f123") →
        ∃ msg, FossenEnv.get_TS F ca TSs cands = Except.error msg) := by
  refine ⟨?_, ?_, ?_, ?_, ?_, ?_⟩
  · intro mode w sl st ns dev inorm ipr h
    rw [DQNAgent.init, if_pos h]
    exact ⟨_, rfl⟩
  · intro sl st ns dev inorm ipr
    rw [DQNAgent.init, if_neg (not_not_intro (Or.inr rfl)),
      if_pos ⟨rfl, rfl⟩]
    exact ⟨_, rfl⟩
  · intro n r i ca sd h
    rw [FossenEnv.init]
    by_cases h1 : ((cond r 1 0 + cond i 1 0 : ℕ) ≤ 1)
    · rw [if_neg (not_not_intro h1), if_pos h]
      exact ⟨_, rfl⟩
    · rw [if_pos h1]
      exact ⟨_, rfl⟩
  · intro s a h
    rw [KVLCC2.control, if_neg h]
    exact ⟨_, rfl⟩
  · intro F OS gN gE TS newTS r mi cl h
    rw [FossenEnv.handle_respawn, if_pos h]
    exact ⟨_, rfl⟩
  · intro F TSs cands ca h
    rw [FossenEnv.get_TS, if_neg h]
    exact ⟨_, rfl⟩

/-- Witness for C9: concrete rejected configurations for every check. -/
theorem config_errors_rejected_witness :
    (∃ msg, DQNAgent.init "eval" none 3 true 1 "cpu" false none
      = Except.error msg)
    ∧ (∃ msg, DQNAgent.init "test" none 3 true 1 "cpu" false none
      = Except.error msg)
    ∧ (∃ msg, FossenEnv.init 3 false false "tau" "bogus"
      = Except.error msg)
    ∧ (∃ msg, KVLCC2.control sampleShip 7 = Except.error msg)
    ∧ (∃ msg, FossenEnv.handle_respawn testFns sampleShip 0 0 sampleShip2
        sampleShip2 true true false = Except.error msg)
    ∧ (∃ msg, FossenEnv.get_TS testFns "rps_angle" [] []
      = Except.error msg) :=
  ⟨config_errors_rejected.1 "eval" none 3 true 1 "cpu" false none (by decide),
   config_errors_rejected.2.1 3 true 1 "cpu" false none,
   config_errors_rejected.2.2.1 3 false false "tau" "bogus" (by decide),
   config_errors_rejected.2.2.2.1 sampleShip 7 (by decide),
   config_errors_rejected.2.2.2.2.1 testFns sampleShip 0 0 sampleShip2
     sampleShip2 true true false (by decide),
   config_errors_rejected.2.2.2.2.2 testFns [] [] "rps_angle" (by decide)⟩

/-- C6: for a configuration with `N_TSs_max` target slots and any number
of target ships up to `N_TSs_max`, the flattened per-target observation
block always has length `N_TSs_max` times the per-target feature count —
in the padding state designs of both environments (`RecDQN` in FossenEnv
with `np.nan` sentinels, `conventional` in the HHOS planner with
ghost-ship sentinels). -/
theorem obs_TS_block_fixed_length :
    (∀ (F : RealFns) (OS : VesselState) (tss : List (VesselState × ℕ))
        (Nmax : ℕ), tss.length ≤ Nmax →
        (FossenEnv.set_state_TSs F OS tss "RecDQN" Nmax).map List.length
          = some (FossenEnv.num_obs_TS * Nmax))
    ∧ (∀ (F : RealFns) (dom : VesselState → VesselState → ℚ) (th : Bool)
        (gp : ℚ) (OS : VesselState) (tss : List HHOS.TSInfo) (Nmax : ℕ),
        tss.length ≤ Nmax →
        (HHOS.set_state_TSs F dom th gp OS tss Nmax).map List.length
          = some (HHOS.num_obs_TS * Nmax)) := by
  constructor
  · intro F OS tss Nmax hlen
    rw [FossenEnv.set_state_TSs]
    have hpl : (((tss.filter
        (fun p => ED F OS.N OS.E p.1.N p.1.E true ≤ FossenEnv.sight))).map
          (fun p => (ED F OS.N OS.E p.1.N p.1.E true
              / FossenEnv.get_ship_domain F OS p.1,
            FossenEnv.TS_features F OS p.1 p.2))).length ≤ Nmax := by
      rw [List.length_map]
      exact le_trans (List.length_filter_le _ _) hlen
    by_cases hemp : ((tss.filter
        (fun p => ED F OS.N OS.E p.1.N p.1.E true ≤ FossenEnv.sight)).map
          (fun p => (ED F OS.N OS.E p.1.N p.1.E true
              / FossenEnv.get_ship_domain F OS p.1,
            FossenEnv.TS_features F OS p.1 p.2))).isEmpty
    · rw [if_pos hemp, if_pos rfl]
      simp
    · rw [if_neg hemp, if_pos rfl]
      have hconst : ∀ l ∈ (sortByKey (fun q => -q.1)
          ((tss.filter
            (fun p => ED F OS.N OS.E p.1.N p.1.E true ≤ FossenEnv.sight)).map
              (fun p => (ED F OS.N OS.E p.1.N p.1.E true
                  / FossenEnv.get_ship_domain F OS p.1,
                FossenEnv.TS_features F OS p.1 p.2)))).map Prod.snd,
          (l.map some).length = FossenEnv.num_obs_TS := by
        intro l hl
        rcases List.mem_map.mp hl with ⟨p, hp, rfl⟩
        rcases List.mem_map.mp (mem_sortByKey hp) with ⟨q, _, rfl⟩
        simp [FossenEnv.TS_features, FossenEnv.num_obs_TS]
      have hflat := length_flatten_const
        (fun (l : List ℚ) => l.map some) FossenEnv.num_obs_TS _ hconst
      have hslen : ((sortByKey (fun q => -q.1)
          ((tss.filter
            (fun p => ED F OS.N OS.E p.1.N p.1.E true ≤ FossenEnv.sight)).map
              (fun p => (ED F OS.N OS.E p.1.N p.1.E true
                  / FossenEnv.get_ship_domain F OS p.1,
                FossenEnv.TS_features F OS p.1 p.2)))).map Prod.snd).length
          ≤ Nmax := by
        rw [List.length_map, length_sortByKey]
        exact hpl
      dsimp only
      split_ifs with hq
      · simp only [Option.map_some', List.length_append,
          List.length_replicate]
        rw [Nat.add_sub_cancel' hq]
      · exfalso
        apply hq
        rw [hflat]
        exact Nat.mul_le_mul_left _ hslen
  · intro F dom th gp OS tss Nmax hlen
    rw [HHOS.set_state_TSs]
    have hfl : (tss.map (HHOS.TS_features F dom th gp OS)).length ≤ Nmax := by
      rw [List.length_map]; exact hlen
    rw [if_pos hfl]
    have hconst : ∀ l ∈ sortByKey (fun l => l.headI)
        (tss.map (HHOS.TS_features F dom th gp OS)
          ++ List.replicate (Nmax - (tss.map
            (HHOS.TS_features F dom th gp OS)).length) HHOS.ghost),
        (id l).length = HHOS.num_obs_TS := by
      intro l hl
      rcases List.mem_append.mp (mem_sortByKey hl) with hl | hl
      · rcases List.mem_map.mp hl with ⟨q, _, rfl⟩
        simp [HHOS.TS_features, HHOS.num_obs_TS]
      · rw [List.eq_of_mem_replicate hl]
        simp [HHOS.ghost, HHOS.num_obs_TS]
    have hflat := length_flatten_const (id : List ℚ → List ℚ)
      HHOS.num_obs_TS _ hconst
    rw [List.map_id] at hflat
    simp only [Option.map_some']
    rw [hflat, length_sortByKey, List.length_append, List.length_replicate,
      Nat.add_sub_cancel' hfl]

/-- Witness for C6: one target ship, three slots, in both environments. -/
theorem obs_TS_block_fixed_length_witness :
    (FossenEnv.set_state_TSs testFns sampleShip [(sampleShip2, 1)]
      "RecDQN" 3).map List.length = some (FossenEnv.num_obs_TS * 3)
    ∧ (HHOS.set_state_TSs testFns (fun _ _ => 0) false 0 sampleShip
      [⟨sampleShip2, false, false⟩] 3).map List.length
        = some (HHOS.num_obs_TS * 3) :=
  ⟨obs_TS_block_fixed_length.1 testFns sampleShip [(sampleShip2, 1)] 3
    (by decide),
   obs_TS_block_fixed_length.2 testFns (fun _ _ => 0) false 0 sampleShip
    [⟨sampleShip2, false, false⟩] 3 (by decide)⟩

/-- C3: the FossenEnv per-step reward is the plain weighted sum of the
independently computed terms (no division by the weight sum), while the
HHOS path-planning reward is the weighted sum of its terms divided by the
sum of the weights, and 0 when the weights sum to zero. -/
theorem reward_aggregation_asymmetry :
    (∀ (F : RealFns) (OS : VesselState) (gN gE : ℚ)
        (tss : List (VesselState × ℕ × Bool)) (w1 w2 w3 w4 w5 : ℚ),
        FossenEnv.calculate_reward F OS gN gE tss w1 w2 w3 w4 w5
          = w1 * FossenEnv.r_dist F OS gN gE
            + w2 * FossenEnv.r_head F OS gN gE
            + w3 * (tss.map (fun t => FossenEnv.r_coll_TS F OS t.1)).sum
            + w4 * (tss.map (FossenEnv.r_COLREG_TS F OS)).sum
            + w5 * FossenEnv.r_comf OS)
    ∧ (∀ (F : RealFns) (dom : VesselState → VesselState → ℚ) (th : Bool)
        (a1 ye gp : ℚ) (OS : VesselState) (tss : List HHOS.TSInfo)
        (H cd wye wce wcoll wcomf wspeed : ℚ),
        (wye + wce + wcoll + (if th then wcomf + wspeed else 0) ≠ 0 →
          HHOS.calculate_reward F dom th a1 ye gp OS tss H cd
              wye wce wcoll wcomf wspeed
            = (wye * HHOS.r_ye F ye + wce * HHOS.r_ce OS gp
                + wcoll * ((tss.map (HHOS.r_coll_TS F dom OS)).sum
                    + (if H ≤ cd then -10 else 0))
                + (if th then wcomf * HHOS.r_comf a1
                    + wspeed * HHOS.r_speed OS else 0))
              / (wye + wce + wcoll + (if th then wcomf + wspeed else 0)))
        ∧ (wye + wce + wcoll + (if th then wcomf + wspeed else 0) = 0 →
          HHOS.calculate_reward F dom th a1 ye gp OS tss H cd
              wye wce wcoll wcomf wspeed = 0)) := by
  constructor
  · intro F OS gN gE tss w1 w2 w3 w4 w5
    rw [FossenEnv.calculate_reward,
      foldl_pair_sum (fun t => FossenEnv.r_coll_TS F OS t.1)
        (FossenEnv.r_COLREG_TS F OS) tss 0 0]
    simp only [zero_add]
  · intro F dom th a1 ye gp OS tss H cd wye wce wcoll wcomf wspeed
    constructor
    · intro h
      rw [HHOS.calculate_reward, if_pos h, HHOS.r_coll,
        foldl_add_sum (HHOS.r_coll_TS F dom OS) tss 0]
      simp only [zero_add]
    · intro h
      rw [HHOS.calculate_reward, if_neg (not_not_intro h)]

/-- Witness for C3: both aggregation formulas at concrete inputs, with
unit weights for the nonzero-sum branch and all-zero weights for the
zero-sum branch. -/
theorem reward_aggregation_asymmetry_witness :
    (FossenEnv.calculate_reward testFns sampleShip 0 0 [] 1 1 1 1 1
      = 1 * FossenEnv.r_dist testFns sampleShip 0 0
        + 1 * FossenEnv.r_head testFns sampleShip 0 0
        + 1 * (([] : List (VesselState × ℕ × Bool)).map
            (fun t => FossenEnv.r_coll_TS testFns sampleShip t.1)).sum
        + 1 * (([] : List (VesselState × ℕ × Bool)).map
            (FossenEnv.r_COLREG_TS testFns sampleShip)).sum
        + 1 * FossenEnv.r_comf sampleShip)
    ∧ HHOS.calculate_reward testFns (fun _ _ => 0) false 0 0 0 sampleShip []
        0 0 1 1 1 0 0
      = (1 * HHOS.r_ye testFns 0 + 1 * HHOS.r_ce sampleShip 0
          + 1 * ((([] : List HHOS.TSInfo).map
              (HHOS.r_coll_TS testFns (fun _ _ => 0) sampleShip)).sum
            + (if (0:ℚ) ≤ 0 then -10 else 0))
          + (if false then 0 * HHOS.r_comf 0 + 0 * HHOS.r_speed sampleShip
              else 0))
        / (1 + 1 + 1 + (if false then 0 + 0 else 0))
    ∧ HHOS.calculate_reward testFns (fun _ _ => 0) false 0 0 0 sampleShip []
        0 0 0 0 0 0 0 = 0 :=
  ⟨reward_aggregation_asymmetry.1 testFns sampleShip 0 0 [] 1 1 1 1 1,
   (reward_aggregation_asymmetry.2 testFns (fun _ _ => 0) false 0 0 0
     sampleShip [] 0 0 1 1 1 0 0).1 (by norm_num),
   (reward_aggregation_asymmetry.2 testFns (fun _ _ => 0) false 0 0 0
     sampleShip [] 0 0 0 0 0 0 0).2 (by norm_num)⟩

lemma rtd_eq (a : ℚ) : rtd a = a * (180 / PI) := by
  unfold rtd; ring

lemma rtd_factor_pos : (0 : ℚ) < 180 / PI := div_pos (by norm_num) PI_pos

lemma rtd_lt_iff {a b : ℚ} : rtd a < rtd b ↔ a < b := by
  rw [rtd_eq, rtd_eq]
  exact mul_lt_mul_right rtd_factor_pos

lemma rtd_le_iff {a b : ℚ} : rtd a ≤ rtd b ↔ a ≤ b := by
  rw [rtd_eq, rtd_eq]
  exact mul_le_mul_right rtd_factor_pos

lemma rtd_PI : rtd PI = 180 := by norm_num [rtd, PI]

lemma rtd_two_PI : rtd (2 * PI) = 360 := by norm_num [rtd, PI]

lemma rtd_sub (a b : ℚ) : rtd (a - b) = rtd a - rtd b := by
  unfold rtd; ring

lemma rtd_angle_to_pi_of_le {c : ℚ} (h0 : 0 ≤ c) (h2 : c < 2 * PI)
    (h1 : rtd c ≤ 180) : rtd (angle_to_pi c) = rtd c := by
  have hc : c ≤ PI := rtd_le_iff.mp (by rw [rtd_PI]; exact h1)
  unfold angle_to_pi
  rw [angle_to_2pi_eq_self h0 h2, if_neg (not_lt.mpr hc)]

lemma rtd_angle_to_pi_of_gt {c : ℚ} (h0 : 0 ≤ c) (h2 : c < 2 * PI)
    (h1 : 180 < rtd c) : rtd (angle_to_pi c) = rtd c - 360 := by
  have hc : PI < c := rtd_lt_iff.mp (by rw [rtd_PI]; exact h1)
  unfold angle_to_pi
  rw [angle_to_2pi_eq_self h0 h2, if_pos hc, rtd_sub, rtd_two_PI]

/-- C1 counterexample: at a relative bearing of exactly 5° with an
intersection angle of 190° (an in-sight geometry), the code classifies
starboard-crossing-small (its boundary is the closed `5 <= bng <= 45`,
`185 <= C_T <= 210`), while the spec's literal half-open windows
`(5°, 45°] × (185°, 210°]` assign no situation at all. -/
theorem colreg_windows_counterexample :
    FossenEnv.colreg_situation 50 (PI / 36) PI (19 * PI / 18) 0 0 = 2
    ∧ FossenEnv.colreg_spec 50 (PI / 36) PI (19 * PI / 18) 0 0 = 0 := by
  constructor <;>
    norm_num [FossenEnv.colreg_situation, FossenEnv.colreg_spec,
      FossenEnv.sight, rtd, angle_to_pi, angle_to_2pi, rat_floor_eq_floor,
      PI]

/-- C1 (amended): the COLREG classifier realises the spec's angular
windows with two corrections forced by the code: the
starboard-crossing-small window is closed, `[5°, 45°] × [185°, 210°]`,
and when several windows overlap the earlier-listed situation wins
(head-on before starboard-small and portside; starboard-large and
portside before overtaking).  Out-of-sight always yields none, and a
geometry in no window yields none. -/
theorem colreg_windows (dist b bt c vr vt : ℚ)
    (hb0 : 0 ≤ b) (hb1 : b < 2 * PI) (hc0 : 0 ≤ c) (hc1 : c < 2 * PI) :
    (dist > FossenEnv.sight →
      FossenEnv.colreg_situation dist b bt c vr vt = 0)
    ∧ (dist ≤ FossenEnv.sight →
      ((-5 ≤ rtd (angle_to_pi b) ∧ rtd (angle_to_pi b) ≤ 5
          ∧ 175 ≤ rtd c ∧ rtd c ≤ 185 →
        FossenEnv.colreg_situation dist b bt c vr vt = 1)
      ∧ (5 ≤ rtd b ∧ rtd b ≤ 45 ∧ 185 ≤ rtd c ∧ rtd c ≤ 210 →
        ¬(-5 ≤ rtd (angle_to_pi b) ∧ rtd (angle_to_pi b) ≤ 5
          ∧ 175 ≤ rtd c ∧ rtd c ≤ 185) →
        FossenEnv.colreg_situation dist b bt c vr vt = 2)
      ∧ (45 < rtd b ∧ rtd b ≤ 112.5 ∧ 210 < rtd c ∧ rtd c ≤ 292.5 →
        FossenEnv.colreg_situation dist b bt c vr vt = 3)
      ∧ (247.5 ≤ rtd b ∧ rtd b ≤ 355 ∧ 67.5 ≤ rtd c ∧ rtd c ≤ 175 →
        ¬(-5 ≤ rtd (angle_to_pi b) ∧ rtd (angle_to_pi b) ≤ 5
          ∧ 175 ≤ rtd c ∧ rtd c ≤ 185) →
        FossenEnv.colreg_situation dist b bt c vr vt = 4)
      ∧ (112.5 ≤ rtd bt ∧ rtd bt ≤ 247.5 ∧ -67.5 ≤ rtd (angle_to_pi c)
          ∧ rtd (angle_to_pi c) ≤ 67.5 ∧ vr > vt →
        ¬(45 < rtd b ∧ rtd b ≤ 112.5 ∧ 210 < rtd c ∧ rtd c ≤ 292.5) →
        ¬(247.5 ≤ rtd b ∧ rtd b ≤ 355 ∧ 67.5 ≤ rtd c ∧ rtd c ≤ 175) →
        FossenEnv.colreg_situation dist b bt c vr vt = 5)
      ∧ (¬(-5 ≤ rtd (angle_to_pi b) ∧ rtd (angle_to_pi b) ≤ 5
            ∧ 175 ≤ rtd c ∧ rtd c ≤ 185) →
        ¬(5 ≤ rtd b ∧ rtd b ≤ 45 ∧ 185 ≤ rtd c ∧ rtd c ≤ 210) →
        ¬(45 < rtd b ∧ rtd b ≤ 112.5 ∧ 210 < rtd c ∧ rtd c ≤ 292.5) →
        ¬(247.5 ≤ rtd b ∧ rtd b ≤ 355 ∧ 67.5 ≤ rtd c ∧ rtd c ≤ 175) →
        ¬(112.5 ≤ rtd bt ∧ rtd bt ≤ 247.5 ∧ -67.5 ≤ rtd (angle_to_pi c)
            ∧ rtd (angle_to_pi c) ≤ 67.5 ∧ vr > vt) →
        FossenEnv.colreg_situation dist b bt c vr vt = 0))) := by
  constructor
  · intro hfar
    rw [FossenEnv.colreg_situation, if_pos hfar]
  · intro hdist
    have hns : ¬(dist > FossenEnv.sight) := not_lt.mpr hdist
    refine ⟨?_, ?_, ?_, ?_, ?_, ?_⟩
    · intro h1
      rw [FossenEnv.colreg_situation, if_neg hns, if_pos h1]
    · intro h2 hn1
      rw [FossenEnv.colreg_situation, if_neg hns, if_neg hn1, if_pos h2]
    · intro h3
      have hn1 : ¬(-5 ≤ rtd (angle_to_pi b) ∧ rtd (angle_to_pi b) ≤ 5
          ∧ 175 ≤ rtd c ∧ rtd c ≤ 185) := by
        rintro ⟨-, -, -, hx⟩
        have := h3.2.2.1
        linarith
      have hn2 : ¬(5 ≤ rtd b ∧ rtd b ≤ 45 ∧ 185 ≤ rtd c ∧ rtd c ≤ 210) := by
        rintro ⟨-, -, -, hx⟩
        have := h3.2.2.1
        linarith
      rw [FossenEnv.colreg_situation, if_neg hns, if_neg hn1, if_neg hn2,
        if_pos h3]
    · intro h4 hn1
      have hn2 : ¬(5 ≤ rtd b ∧ rtd b ≤ 45 ∧ 185 ≤ rtd c ∧ rtd c ≤ 210) := by
        rintro ⟨-, -, hx, -⟩
        have := h4.2.2.2
        linarith
      have hn3 : ¬(45 < rtd b ∧ rtd b ≤ 112.5 ∧ 210 < rtd c
          ∧ rtd c ≤ 292.5) := by
        rintro ⟨-, -, hx, -⟩
        have := h4.2.2.2
        linarith
      rw [FossenEnv.colreg_situation, if_neg hns, if_neg hn1, if_neg hn2,
        if_neg hn3, if_pos h4]
    · intro h5 hn3 hn4
      have hlo := h5.2.2.1
      have hhi := h5.2.2.2.1
      have hn1 : ¬(-5 ≤ rtd (angle_to_pi b) ∧ rtd (angle_to_pi b) ≤ 5
          ∧ 175 ≤ rtd c ∧ rtd c ≤ 185) := by
        rintro ⟨-, -, hx, hy⟩
        rcases le_or_lt (rtd c) 180 with hcle | hcgt
        · rw [rtd_angle_to_pi_of_le hc0 hc1 hcle] at hlo hhi
          linarith
        · rw [rtd_angle_to_pi_of_gt hc0 hc1 hcgt] at hlo hhi
          linarith
      have hn2 : ¬(5 ≤ rtd b ∧ rtd b ≤ 45 ∧ 185 ≤ rtd c ∧ rtd c ≤ 210) := by
        rintro ⟨-, -, hx, hy⟩
        rcases le_or_lt (rtd c) 180 with hcle | hcgt
        · rw [rtd_angle_to_pi_of_le hc0 hc1 hcle] at hlo hhi
          linarith
        · rw [rtd_angle_to_pi_of_gt hc0 hc1 hcgt] at hlo hhi
          linarith
      rw [FossenEnv.colreg_situation, if_neg hns, if_neg hn1, if_neg hn2,
        if_neg hn3, if_neg hn4, if_pos h5]
    · intro hn1 hn2 hn3 hn4 hn5
      rw [FossenEnv.colreg_situation, if_neg hns, if_neg hn1, if_neg hn2,
        if_neg hn3, if_neg hn4, if_neg hn5]

/-- Witness for C1: a relative bearing of 30° with an intersection angle
of 210° is classified starboard-crossing-small. -/
theorem colreg_windows_witness :
    FossenEnv.colreg_situation 50 (PI / 6) PI (7 * PI / 6) 0 0 = 2 := by
  have h := (colreg_windows 50 (PI / 6) PI (7 * PI / 6) 0 0
    (by norm_num [PI]) (by norm_num [PI]) (by norm_num [PI])
    (by norm_num [PI])).2 (by norm_num [FossenEnv.sight])
  refine h.2.1 ?_ ?_
  · norm_num [rtd, PI]
  · rintro ⟨-, -, -, hx⟩
    norm_num [rtd, PI] at hx

end TudRL
